import Mathlib

/-!
Verification development for the Corner-Boxing/corner-api enqueue service
(`src/main.py`), a small Flask HTTP API backed by a Supabase row store.

The Python code is shallowly embedded here:

* Python values that can occur in a request payload are modelled by `PyVal`
  (`None`, `bool`, `int`, `str`).  Floats, lists, dicts and arbitrary objects
  are outside the modelled value universe; every claim under study is already
  decided within this fragment.
* A JSON-object payload is an association list `Payload`; `dict.get` is
  `pyGet` (absent key gives `PyVal.none`, exactly like Python).
* Python truthiness is `truthy`, `x or y` is `pyOr`, `str(x)` is `pyStr`,
  `str.strip()` is `pyStrip` (over the ASCII whitespace characters
  space/tab/LF/CR/VT/FF), `str.lower()` is `pyLower` (ASCII case folding),
  and `int(x)` is `pyToInt`, returning `Option Int` where `Option.none`
  stands for the `TypeError`/`ValueError` that `int()` raises.
* `normalize_plan` (main.py lines 30-55) returns `Option GenerationPlan`:
  `Option.none` models the `AttributeError` raised by
  `(payload.get("difficulty") or "beginner").strip()` when the difficulty
  value is truthy but not a string; every other field of the function is
  total.
-/

inductive PyVal where
  | none : PyVal
  | bool : Bool → PyVal
  | int : Int → PyVal
  | str : String → PyVal
deriving Repr, DecidableEq

/-- A JSON object / Python dict, as an association list. -/
abbrev Payload := List (String × PyVal)

/-- Python truthiness of a value (`bool(v)`). -/
def truthy : PyVal → Bool
  | .none => false
  | .bool b => b
  | .int n => n != 0
  | .str s => s != ""

/-- Python `a or b`: `a` when `a` is truthy, else `b`. -/
def pyOr (a b : PyVal) : PyVal :=
  if truthy a then a else b

/-- Python `d.get(k)`: the value stored at `k`, or `None` when absent. -/
def pyGet (d : Payload) (k : String) : PyVal :=
  (List.lookup k d).getD PyVal.none

/-- Python `str(v)` for the modelled value universe. -/
def pyStr : PyVal → String
  | .none => "None"
  | .bool b => if b then "True" else "False"
  | .int n => toString n
  | .str s => s

/-- The ASCII whitespace characters stripped by Python `str.strip()`. -/
def isPySpace (c : Char) : Bool :=
  c = ' ' || c = '\t' || c = '\n' || c = '\r' || c = Char.ofNat 11 || c = Char.ofNat 12

/-- Strip leading and trailing whitespace from a character list. -/
def stripList (l : List Char) : List Char :=
  (((l.dropWhile isPySpace).reverse).dropWhile isPySpace).reverse

/-- Python `s.strip()`. -/
def pyStrip (s : String) : String :=
  String.mk (stripList s.toList)

/-- Python `s.lower()` (ASCII case folding). -/
def pyLower (s : String) : String :=
  String.mk (s.toList.map Char.toLower)

/-- The numeric value of a non-empty all-digit character list. -/
def natFromDigits (cs : List Char) : Option Nat :=
  if cs ≠ [] ∧ cs.all Char.isDigit then
    some (cs.foldl (fun a c => a * 10 + (c.toNat - 48)) 0)
  else
    Option.none

/-- Python `int(s)` on a string: surrounding whitespace allowed, then an
optional sign and decimal digits; anything else raises (`Option.none`). -/
def pyStrToInt (s : String) : Option Int :=
  match stripList s.toList with
  | [] => Option.none
  | c :: cs =>
    if c = '+' then (natFromDigits cs).map Int.ofNat
    else if c = '-' then (natFromDigits cs).map (fun n => -(Int.ofNat n))
    else (natFromDigits (c :: cs)).map Int.ofNat

/-- Python `int(v)`: `Option.none` models the raised `TypeError`/`ValueError`. -/
def pyToInt : PyVal → Option Int
  | .none => Option.none
  | .bool b => some (if b then 1 else 0)
  | .int n => some n
  | .str s => pyStrToInt s

/-- main.py line 27. -/
def ALLOWED_DIFFICULTIES : List String := ["beginner", "intermediate", "advanced"]

/-- main.py line 28. -/
def ALLOWED_PACES : List String := ["Slow", "Normal", "Fast"]

/-- The "no music" synonym tuple of main.py line 47. -/
def MUSIC_NONE_SYNONYMS : List String := ["none", "no", "off", "coach only", "coach-only"]

/-- The normalized plan returned by `normalize_plan` (main.py lines 50-55). -/
structure GenerationPlan where
  difficulty : String
  length_min : Int
  pace : String
  music : String
deriving Repr, DecidableEq

/-- main.py lines 31-33: `(payload.get("difficulty") or "beginner").strip().lower()`,
then the membership check.  `.strip()` on a truthy non-string raises
`AttributeError`, modelled by `Option.none`. -/
def normDifficulty (v : PyVal) : Option String :=
  match pyOr v (.str "beginner") with
  | .str s =>
    let d := pyLower (pyStrip s)
    some (if d ∈ ALLOWED_DIFFICULTIES then d else "beginner")
  | _ => Option.none

/-- The argument of `int(...)` on main.py line 36:
`payload.get("length") or payload.get("length_min") or 30`. -/
def lengthArg (payload : Payload) : PyVal :=
  pyOr (pyOr (pyGet payload "length") (pyGet payload "length_min")) (.int 30)

/-- main.py lines 35-40: `int(...)` with fallback 30 on any exception, then
the allowed-set check. -/
def normLength (v : PyVal) : Int :=
  let n := (pyToInt v).getD 30
  if n = 20 ∨ n = 30 ∨ n = 45 ∨ n = 60 then n else 30

/-- main.py lines 42-44: `str(payload.get("pace") or "Normal").strip()` and
the membership check. -/
def normPace (v : PyVal) : String :=
  let s := pyStrip (pyStr (pyOr v (.str "Normal")))
  if s ∈ ALLOWED_PACES then s else "Normal"

/-- main.py lines 46-48: `str(payload.get("music") or "none").strip()`, with
case-insensitive synonyms of "no music" collapsed to `"none"`. -/
def normMusic (v : PyVal) : String :=
  let s := pyStrip (pyStr (pyOr v (.str "none")))
  if pyLower s ∈ MUSIC_NONE_SYNONYMS then "none" else s

/-- main.py lines 30-55.  `Option.none` models the `AttributeError` raised on
line 31 when the difficulty value is truthy but not a string; the remaining
fields never raise (pace and music go through `str(...)`, the length
conversion sits in a `try`/`except`). -/
def normalize_plan (payload : Payload) : Option GenerationPlan :=
  (normDifficulty (pyGet payload "difficulty")).map (fun d =>
    { difficulty := d
      length_min := normLength (lengthArg payload)
      pace := normPace (pyGet payload "pace")
      music := normMusic (pyGet payload "music") })

/-- The dict returned by `normalize_plan` (main.py lines 50-55), viewed again
as a request payload, for restating idempotence. -/
def planPayload (p : GenerationPlan) : Payload :=
  [("difficulty", .str p.difficulty), ("length_min", .int p.length_min),
   ("pace", .str p.pace), ("music", .str p.music)]

/-!
## The `/generate` handler (main.py lines 142-261)

The handler is embedded as a pure function from a request and a description
of the external world (the Supabase auth endpoint and the two table inserts)
to an HTTP response together with the list of store operations it issued.

The file as committed is not a runnable Python program: the
`class_sessions` insert block at lines 208-231 is indented at function level
— it dedents out of the `try:` suite opened on line 153, so CPython rejects
`src/main.py` with a SyntaxError at import — and line 233 re-issues the
insert from a variable `sess_payload` that is defined nowhere.
`generate_shipped` below gives the committed file its most charitable
runtime reading: the mis-indented block is dead text, execution reaches
line 233, and the reference to the undefined name `sess_payload` raises
`NameError` *before* any insert call is made (the argument is evaluated
first), which the outer `except` of lines 255-261 converts into the generic
JSON 500.  Consequently the session insert, the success response of lines
249-253, and the compensation block of lines 236-247 are all unreachable in
the committed file.
-/

/-- A `/generate` request: the result of `request.get_json(force=True,
silent=True)` (`Option.none` models an unparseable body, for which Flask
returns `None` under `silent=True`), and the optional `Authorization`
header. -/
structure GenRequest where
  body : Option Payload
  authHeader : Option String
deriving DecidableEq

/-- The outcome of one supabase `.execute()` call: either the call raised
(`exn`), or it returned a response object with an `error` field (`Option
String`, the message `supa_err` extracts, main.py lines 57-64) and a `data`
row list. -/
inductive CallResult where
  | exn (msg : String)
  | resp (err : Option String) (rows : List Payload)
deriving DecidableEq

/-- The external collaborators of one request: the Supabase auth endpoint
(token to verified user id, `Option.none` for every failure mode), and the
results of the jobs insert and the class_sessions insert.  `deleteExn` tells
whether the rollback delete would raise; in the committed file neither the
session insert nor the delete is ever reached. -/
structure ExternalWorld where
  auth : String → Option String
  jobInsert : CallResult
  sessInsert : CallResult
  deleteExn : Bool

/-- Everything after the first space of a string (Python
`s.split(" ", 1)[1]`, defined when a space occurs in `s`). -/
def afterFirstSpace (s : String) : String :=
  String.mk ((s.toList.dropWhile (fun c => c != ' ')).drop 1)

/-- main.py lines 165-167: the bearer token of an `Authorization` header, if
the header starts (case-insensitively) with `"bearer "`. -/
def bearerToken (h : String) : Option String :=
  if (pyLower h).startsWith "bearer " then some (pyStrip (afterFirstSpace h)) else Option.none

/-- main.py lines 162-180: best-effort identity resolution.  Absent header,
non-bearer header, and every failure of `supabase.auth.get_user` (modelled
by `w.auth token = Option.none`) leave `user_id = None`; no outcome raises
out of the block (lines 177-180 catch everything). -/
def resolveUser (req : GenRequest) (w : ExternalWorld) : Option String :=
  match req.authHeader with
  | Option.none => Option.none
  | some h =>
    match bearerToken h with
    | Option.none => Option.none
    | some token => w.auth token

/-- A RowField of an inserted row: a plain value or a nested plan dict. -/
inductive RowField where
  | val (v : PyVal)
  | plan (p : GenerationPlan)
deriving DecidableEq

/-- The jobs row inserted on main.py lines 183-194. -/
def jobRow (plan : GenerationPlan) : List (String × RowField) :=
  [("status", .val (.str "queued")), ("plan", .plan plan), ("error", .val .none),
   ("file_url", .val .none), ("storage_path", .val .none)]

/-- The class_sessions row of main.py lines 209-231 (dead text in the
committed file, kept for documentation of the intended insert). -/
def sessionRow (job_id : PyVal) (user_id : Option String) (plan : GenerationPlan) :
    List (String × RowField) :=
  [("job_id", .val job_id),
   ("user_id", .val (match user_id with | some u => .str u | Option.none => .none)),
   ("status", .val (.str "queued")), ("plan", .plan plan),
   ("difficulty", .val (.str plan.difficulty)), ("length_min", .val (.int plan.length_min)),
   ("pace", .val (.str plan.pace)), ("music", .val (.str plan.music)),
   ("file_url", .val .none), ("error", .val .none), ("started_at", .val .none),
   ("completed_at", .val .none), ("storage_path", .val .none)]

/-- One operation issued against the row store. -/
inductive StoreOp where
  | insert (table : String) (row : List (String × RowField))
  | delete (table : String) (col : String) (key : PyVal)
deriving DecidableEq

/-- Whether a store operation is a delete. -/
def StoreOp.isDelete : StoreOp → Bool
  | .delete _ _ _ => true
  | _ => false

/-- An HTTP response: status code and JSON object body. -/
structure HResponse where
  status : Nat
  body : List (String × PyVal)
deriving DecidableEq

/-- Python truthiness of a `supa_err` result (`None` or a message string). -/
def errTruthy : Option String → Bool
  | Option.none => false
  | some m => m != ""

/-- Python `err or d` for a `supa_err` result. -/
def errOr (err : Option String) (d : String) : String :=
  match err with
  | Option.none => d
  | some m => if m != "" then m else d

/-- A single-quote character, for reproducing Python error strings. -/
def squote : String := String.singleton (Char.ofNat 39)

/-- The `NameError` message for the undefined `sess_payload` of main.py
line 233. -/
def nameErrorDetails : String :=
  "name " ++ squote ++ "sess_payload" ++ squote ++ " is not defined"

/-- The `AttributeError` message produced when main.py line 31 calls
`.strip()` on a truthy non-string difficulty value. -/
def strAttrError (v : PyVal) : String :=
  let ty : String :=
    match v with
    | .int _ => "int"
    | .bool _ => "bool"
    | .none => "NoneType"
    | .str _ => "str"
  squote ++ ty ++ squote ++ " object has no attribute " ++ squote ++ "strip" ++ squote

/-- The generic JSON 500 of main.py lines 255-261. -/
def internalError (details : String) : HResponse :=
  { status := 500
    body := [("status", .str "error"), ("error", .str "Internal server error"),
             ("details", .str details)] }

/-- The `/generate` handler of main.py lines 142-261 as committed (see the
section comment above): body parse with `force=True, silent=True` (line 156,
an unparseable body becomes `{}`), plan normalization (line 160), best-effort
identity resolution (lines 162-180), the jobs insert with its error checks
(lines 182-206), and then — in place of the unreachable session insert,
compensation and success paths — the `NameError` raised by line 233's
reference to the undefined `sess_payload`, converted by the outer `except`
(lines 255-261) into the generic JSON 500. -/
def generate_shipped (req : GenRequest) (w : ExternalWorld) : HResponse × List StoreOp :=
  let data := (req.body).getD []
  match normalize_plan data with
  | Option.none =>
    (internalError (strAttrError (pyOr (pyGet data "difficulty") (.str "beginner"))), [])
  | some plan =>
    let _user_id := resolveUser req w
    let ops := [StoreOp.insert "jobs" (jobRow plan)]
    match w.jobInsert with
    | .exn m => (internalError m, ops)
    | .resp err rows =>
      if errTruthy err || rows.isEmpty then
        ({ status := 500
           body := [("status", .str "error"), ("error", .str "Failed to create job row"),
                    ("details", .str (errOr err "Unknown Supabase error"))] }, ops)
      else
        let job_id := pyGet (rows.headD []) "id"
        if truthy job_id then
          (internalError nameErrorDetails, ops)
        else
          ({ status := 500
             body := [("status", .str "error"), ("error", .str "Job row missing id")] }, ops)

/-- Modelled from the spec: the `GET /job-status/<job_id>` route exists only
in the first revision of the service, which is not included under `src/`
(`src/main.py` has no such route).  Following spec sections 4.4 and 6: fetch
the record for the identifier from the store; when absent respond
`404 {status:"not_found"}`; when present respond 200 with the full stored
record plus its `status`/`file_url`/`error` fields made explicit (null when
absent); mutate nothing (the store is returned unchanged). -/
def job_status (store : String → Option Payload) (jid : String) :
    HResponse × (String → Option Payload) :=
  match store jid with
  | Option.none => ({ status := 404, body := [("status", .str "not_found")] }, store)
  | some rec =>
    ({ status := 200
       body := rec ++ [("status", pyGet rec "status"), ("file_url", pyGet rec "file_url"),
                       ("error", pyGet rec "error")] }, store)

/-- A world in which every external call succeeds. -/
def allOkWorld : ExternalWorld :=
  { auth := fun _ => Option.none
    jobInsert := .resp Option.none [[("id", .str "job-1")]]
    sessInsert := .resp Option.none [[("id", .str "sess-1")]]
    deleteExn := false }

/-- A world in which the jobs insert succeeds and the class_sessions insert
reports an error — the scenario the compensation logic is written for. -/
def sessFailWorld : ExternalWorld :=
  { auth := fun _ => Option.none
    jobInsert := .resp Option.none [[("id", .str "job-1")]]
    sessInsert := .resp (some "duplicate key value violates unique constraint") []
    deleteExn := false }

example : normalize_plan [] =
    some { difficulty := "beginner", length_min := 30, pace := "Normal", music := "none" } := by
  decide

example : normalize_plan [("difficulty", PyVal.int 5)] = Option.none := by decide

example : normalize_plan [("length", PyVal.int 37)] =
    some { difficulty := "beginner", length_min := 30, pace := "Normal", music := "none" } := by
  decide

example : normalize_plan [("music", PyVal.str " ")] =
    some { difficulty := "beginner", length_min := 30, pace := "Normal", music := "" } := by
  decide

example : normalize_plan [("music", PyVal.str "Coach Only"), ("difficulty", PyVal.str " ADVANCED "),
      ("length", PyVal.str " 45 "), ("pace", PyVal.str "Fast")] =
    some { difficulty := "advanced", length_min := 45, pace := "Fast", music := "none" } := by
  decide

/-!
## Supporting lemmas
-/

theorem dropWhile_head_false {α : Type} (p : α → Bool) (l : List α) (c : α) (cs : List α)
    (h : l.dropWhile p = c :: cs) : p c = false := by
  induction l with
  | nil => simp [List.dropWhile] at h
  | cons a t ih =>
    rw [List.dropWhile_cons] at h
    by_cases hp : p a
    · exact ih (by simpa [hp] using h)
    · simp only [hp, if_false] at h
      obtain ⟨rfl, -⟩ := List.cons.injEq .. ▸ h
      simpa using hp

theorem stripList_eq_self (l : List Char) (h1 : l.dropWhile isPySpace = l)
    (h2 : l.reverse.dropWhile isPySpace = l.reverse) : stripList l = l := by
  unfold stripList
  rw [h1, h2, List.reverse_reverse]

theorem stripList_of_dropWhile_nil (l : List Char) (h : l.dropWhile isPySpace = []) :
    stripList l = [] := by
  unfold stripList
  rw [h]
  rfl

theorem dropWhile_append_last (p : Char → Bool) (xs : List Char) (c : Char) (hc : p c = false) :
    (xs ++ [c]).dropWhile p = xs.dropWhile p ++ [c] := by
  induction xs with
  | nil => simp [List.dropWhile, hc]
  | cons a t ih =>
    rw [List.cons_append, List.dropWhile_cons, List.dropWhile_cons]
    by_cases hp : p a <;> simp [hp, ih]

theorem stripList_cons_shape (l : List Char) (c : Char) (cs : List Char)
    (h : l.dropWhile isPySpace = c :: cs) :
    stripList l = c :: (cs.reverse.dropWhile isPySpace).reverse := by
  have hc : isPySpace c = false := dropWhile_head_false _ _ _ _ h
  unfold stripList
  rw [h, List.reverse_cons, dropWhile_append_last _ _ _ hc, List.reverse_append]
  simp

theorem stripList_idem (l : List Char) : stripList (stripList l) = stripList l := by
  apply stripList_eq_self
  · cases h : l.dropWhile isPySpace with
    | nil => rw [stripList_of_dropWhile_nil l h]; rfl
    | cons c cs =>
      have hc : isPySpace c = false := dropWhile_head_false _ _ _ _ h
      rw [stripList_cons_shape l c cs h, List.dropWhile_cons, hc]
      simp
  · have hrev : (stripList l).reverse = ((l.dropWhile isPySpace).reverse).dropWhile isPySpace := by
      unfold stripList
      rw [List.reverse_reverse]
    rw [hrev]
    exact List.dropWhile_idempotent _ _

theorem pyStrip_idem (s : String) : pyStrip (pyStrip s) = pyStrip s :=
  congrArg String.mk (stripList_idem s.toList)

theorem toLower_of_space (c : Char) (h : isPySpace c = true) : Char.toLower c = c := by
  unfold isPySpace at h
  simp only [Bool.or_eq_true, decide_eq_true_eq] at h
  rcases h with ((((h | h) | h) | h) | h) | h <;> subst h <;> decide

theorem dropWhile_eq_self_of_lower_head (l w : List Char) (hm : l.map Char.toLower = w)
    (hw : w.head?.map isPySpace = some false) : l.dropWhile isPySpace = l := by
  subst hm
  cases l with
  | nil => rfl
  | cons c cs =>
    simp only [List.map_cons, List.head?_cons, Option.map_some'] at hw
    rw [Option.some.injEq] at hw
    have hc : isPySpace c = false := by
      cases hb : isPySpace c
      · rfl
      · rw [toLower_of_space c hb, hb] at hw
        exact hw
    rw [List.dropWhile_cons, hc]
    simp

theorem stripList_map_lower_eq_self (l w : List Char) (hm : l.map Char.toLower = w)
    (hw : w.head?.map isPySpace = some false)
    (hv : w.reverse.head?.map isPySpace = some false) : stripList l = l :=
  stripList_eq_self l (dropWhile_eq_self_of_lower_head l w hm hw)
    (dropWhile_eq_self_of_lower_head l.reverse w.reverse (by rw [List.map_reverse, hm]) hv)

theorem pyStrip_of_pyLower_mem (s : String) (h : pyLower s ∈ MUSIC_NONE_SYNONYMS) :
    pyStrip s = s := by
  simp only [MUSIC_NONE_SYNONYMS, List.mem_cons, List.not_mem_nil, or_false] at h
  rcases h with h | h | h | h | h <;>
    exact congrArg String.mk
      (stripList_map_lower_eq_self s.toList _ (congrArg String.toList h) (by decide) (by decide))

theorem ne_empty_of_pyLower_mem (s : String) (h : pyLower s ∈ MUSIC_NONE_SYNONYMS) : s ≠ "" := by
  intro he
  rw [he] at h
  exact absurd h (by decide)

theorem normDifficulty_mem (v : PyVal) (d : String) (h : normDifficulty v = some d) :
    d ∈ ALLOWED_DIFFICULTIES := by
  simp only [normDifficulty] at h
  split at h
  · rw [Option.some.injEq] at h
    subst h
    split
    · assumption
    · decide
  · cases h

theorem normLength_mem (v : PyVal) : normLength v ∈ ([20, 30, 45, 60] : List Int) := by
  simp only [normLength]
  split
  · rename_i h
    rcases h with h | h | h | h <;> simp [h]
  · decide

theorem normPace_mem (v : PyVal) : normPace v ∈ ALLOWED_PACES := by
  simp only [normPace]
  split
  · assumption
  · decide

theorem normMusic_shape (v : PyVal) :
    normMusic v = "none" ∨
      (pyStrip (normMusic v) = normMusic v ∧ pyLower (normMusic v) ∉ MUSIC_NONE_SYNONYMS) := by
  simp only [normMusic]
  split
  · left; rfl
  · right
    rename_i h
    exact ⟨pyStrip_idem _, h⟩

theorem normalize_plan_fields (p : Payload) (plan : GenerationPlan)
    (h : normalize_plan p = some plan) :
    plan.difficulty ∈ ALLOWED_DIFFICULTIES ∧
    plan.length_min ∈ ([20, 30, 45, 60] : List Int) ∧
    plan.pace ∈ ALLOWED_PACES ∧
    (plan.music = "none" ∨
      (pyStrip plan.music = plan.music ∧ pyLower plan.music ∉ MUSIC_NONE_SYNONYMS)) := by
  obtain ⟨d, hd, rfl⟩ := Option.map_eq_some'.mp h
  exact ⟨normDifficulty_mem _ _ hd, normLength_mem _, normPace_mem _, normMusic_shape _⟩

theorem normDifficulty_fixed (d : String) (h : d ∈ ALLOWED_DIFFICULTIES) :
    normDifficulty (.str d) = some d := by
  simp only [ALLOWED_DIFFICULTIES, List.mem_cons, List.not_mem_nil, or_false] at h
  rcases h with rfl | rfl | rfl <;> decide

theorem normPace_fixed (s : String) (h : s ∈ ALLOWED_PACES) : normPace (.str s) = s := by
  simp only [ALLOWED_PACES, List.mem_cons, List.not_mem_nil, or_false] at h
  rcases h with rfl | rfl | rfl <;> decide

theorem pyGet_planPayload_length (pl : GenerationPlan) :
    pyGet (planPayload pl) "length" = PyVal.none := rfl

theorem pyGet_planPayload_length_min (pl : GenerationPlan) :
    pyGet (planPayload pl) "length_min" = PyVal.int pl.length_min := rfl

theorem lengthArg_planPayload (pl : GenerationPlan) (h : pl.length_min ≠ 0) :
    lengthArg (planPayload pl) = PyVal.int pl.length_min := by
  unfold lengthArg
  rw [pyGet_planPayload_length, pyGet_planPayload_length_min]
  simp [pyOr, truthy, h]

theorem normMusic_str_fixed (m : String) (hne : m ≠ "") (hstrip : pyStrip m = m)
    (hmem : pyLower m ∉ MUSIC_NONE_SYNONYMS) : normMusic (.str m) = m := by
  simp only [normMusic]
  have h1 : pyOr (.str m) (.str "none") = .str m := by simp [pyOr, truthy, hne]
  rw [h1, show pyStr (PyVal.str m) = m from rfl, hstrip, if_neg hmem]

theorem planPayload_renorm (d : String) (n : Int) (pc m : String)
    (hd : d ∈ ALLOWED_DIFFICULTIES) (hn : n ∈ ([20, 30, 45, 60] : List Int))
    (hpc : pc ∈ ALLOWED_PACES) (hm : m ≠ "")
    (hm2 : m = "none" ∨ (pyStrip m = m ∧ pyLower m ∉ MUSIC_NONE_SYNONYMS)) :
    normalize_plan (planPayload ⟨d, n, pc, m⟩) = some ⟨d, n, pc, m⟩ := by
  have hn0 : n ≠ 0 := by
    simp only [List.mem_cons, List.not_mem_nil, or_false] at hn
    rcases hn with rfl | rfl | rfl | rfl <;> decide
  simp only [normalize_plan]
  rw [show pyGet (planPayload ⟨d, n, pc, m⟩) "difficulty" = PyVal.str d from rfl,
    normDifficulty_fixed d hd, Option.map_some']
  rw [Option.some.injEq, GenerationPlan.mk.injEq]
  refine ⟨rfl, ?_, ?_, ?_⟩
  · rw [show lengthArg (planPayload ⟨d, n, pc, m⟩) = PyVal.int n from
      lengthArg_planPayload ⟨d, n, pc, m⟩ hn0]
    simp only [List.mem_cons, List.not_mem_nil, or_false] at hn
    simp only [normLength]
    rcases hn with rfl | rfl | rfl | rfl <;> decide
  · rw [show pyGet (planPayload ⟨d, n, pc, m⟩) "pace" = PyVal.str pc from rfl,
      normPace_fixed pc hpc]
  · rw [show pyGet (planPayload ⟨d, n, pc, m⟩) "music" = PyVal.str m from rfl]
    rcases hm2 with rfl | ⟨h1, h2⟩
    · decide
    · exact normMusic_str_fixed m hm h1 h2

theorem generate_shipped_response (req : GenRequest) (w : ExternalWorld) :
    (generate_shipped req w).1.status = 500 ∧
    List.lookup "status" (generate_shipped req w).1.body = some (PyVal.str "error") := by
  simp only [generate_shipped]
  split
  · exact ⟨rfl, rfl⟩
  · split
    · exact ⟨rfl, rfl⟩
    · split
      · exact ⟨rfl, rfl⟩
      · split
        · exact ⟨rfl, rfl⟩
        · exact ⟨rfl, rfl⟩

/-!
## Claim theorems
-/

/-- Claim C1, counterexample: `normalize_plan` is not total over arbitrary
untyped payloads — a truthy non-string difficulty value (the integer 5)
makes line 31 call `.strip()` on an `int`, raising `AttributeError`
(modelled by `Option.none`), instead of degrading to the default. -/
theorem normalize_plan_raises_on_nonstring_difficulty :
    normalize_plan [("difficulty", PyVal.int 5)] = Option.none := by decide

/-- Claim C1 as amended: for every payload whose difficulty value is a
string or is falsy, `normalize_plan` terminates normally and returns a
`GenerationPlan`, and a numeric parsing failure of the length value falls
back to `length_min = 30`. -/
theorem normalize_plan_total_when_difficulty_wellformed (p : Payload)
    (h : (∃ s, pyGet p "difficulty" = PyVal.str s) ∨ truthy (pyGet p "difficulty") = false) :
    ∃ plan, normalize_plan p = some plan ∧
      (pyToInt (lengthArg p) = Option.none → plan.length_min = 30) := by
  have hd : ∃ d, normDifficulty (pyGet p "difficulty") = some d := by
    rcases h with ⟨s, hs⟩ | h
    · rw [hs]
      cases ht : truthy (PyVal.str s) <;> simp [normDifficulty, pyOr, ht]
    · simp [normDifficulty, pyOr, h]
  obtain ⟨d, hd⟩ := hd
  refine ⟨⟨d, normLength (lengthArg p), normPace (pyGet p "pace"),
    normMusic (pyGet p "music")⟩, ?_, ?_⟩
  · simp only [normalize_plan, hd, Option.map_some']
  · intro hnone
    show normLength (lengthArg p) = 30
    simp only [normLength]
    rw [hnone]
    decide

/-- Witness for the amended C1 at a concrete malformed payload: difficulty
is the falsy integer 0 and the length value is the unparseable string
`"abc"`. -/
theorem normalize_plan_total_when_difficulty_wellformed_witness :
    ∃ plan, normalize_plan [("difficulty", PyVal.int 0), ("length", PyVal.str "abc")] = some plan ∧
      (pyToInt (lengthArg [("difficulty", PyVal.int 0), ("length", PyVal.str "abc")]) =
          Option.none → plan.length_min = 30) :=
  normalize_plan_total_when_difficulty_wellformed _ (Or.inr (by decide))

/-- Claim C5: whenever `normalize_plan` returns a plan, its difficulty,
length and pace lie in the allowed sets, and in particular `length=37`
(invalid) yields `length_min=30` while `length=45` yields `length_min=45`. -/
theorem normalize_plan_output_in_allowed_sets :
    (∀ (p : Payload) (plan : GenerationPlan), normalize_plan p = some plan →
      plan.difficulty ∈ ALLOWED_DIFFICULTIES ∧
      plan.length_min ∈ ([20, 30, 45, 60] : List Int) ∧
      plan.pace ∈ ALLOWED_PACES) ∧
    normalize_plan [("length", PyVal.int 37)] =
      some { difficulty := "beginner", length_min := 30, pace := "Normal", music := "none" } ∧
    normalize_plan [("length", PyVal.int 45)] =
      some { difficulty := "beginner", length_min := 45, pace := "Normal", music := "none" } := by
  refine ⟨fun p plan h => ?_, by decide, by decide⟩
  obtain ⟨h1, h2, h3, -⟩ := normalize_plan_fields p plan h
  exact ⟨h1, h2, h3⟩

/-- Witness for C5 at the empty payload. -/
theorem normalize_plan_output_in_allowed_sets_witness :
    "beginner" ∈ ALLOWED_DIFFICULTIES ∧ (30 : Int) ∈ ([20, 30, 45, 60] : List Int) ∧
      "Normal" ∈ ALLOWED_PACES :=
  normalize_plan_output_in_allowed_sets.1 []
    { difficulty := "beginner", length_min := 30, pace := "Normal", music := "none" } (by decide)

/-- Claim C6, counterexample: the output of `normalize_plan` is not always a
fixed point.  The payload `{"music": " "}` normalizes to a plan with
`music = ""` (the truthy one-space string survives the `or`-default and is
stripped to empty), and renormalizing that plan turns the now-falsy empty
music into `"none"`. -/
theorem normalize_plan_not_idempotent_on_blank_music :
    normalize_plan [("music", PyVal.str " ")] =
      some { difficulty := "beginner", length_min := 30, pace := "Normal", music := "" } ∧
    normalize_plan (planPayload ⟨"beginner", 30, "Normal", ""⟩) =
      some { difficulty := "beginner", length_min := 30, pace := "Normal", music := "none" } ∧
    normalize_plan (planPayload ⟨"beginner", 30, "Normal", ""⟩) ≠
      some { difficulty := "beginner", length_min := 30, pace := "Normal", music := "" } := by
  refine ⟨by decide, by decide, by decide⟩

/-- Claim C6 as amended: `normalize_plan` is deterministic (it is a pure
function of the payload), and every returned plan whose music field is
nonempty is a fixed point of renormalization.  Idempotence fails only for
plans with empty music, which arise exactly from truthy whitespace-only
music inputs. -/
theorem normalize_plan_idempotent_on_nonempty_music (p : Payload) (plan : GenerationPlan)
    (h : normalize_plan p = some plan) (hm : plan.music ≠ "") :
    normalize_plan (planPayload plan) = some plan := by
  obtain ⟨h1, h2, h3, h4⟩ := normalize_plan_fields p plan h
  obtain ⟨d, n, pc, m⟩ := plan
  exact planPayload_renorm d n pc m h1 h2 h3 hm h4

/-- Witness for the amended C6 at the payload `{"music": "Rock"}`. -/
theorem normalize_plan_idempotent_on_nonempty_music_witness :
    normalize_plan (planPayload ⟨"beginner", 30, "Normal", "Rock"⟩) =
      some { difficulty := "beginner", length_min := 30, pace := "Normal", music := "Rock" } :=
  normalize_plan_idempotent_on_nonempty_music [("music", PyVal.str "Rock")] _ (by decide)
    (by decide)

/-- Claim C7: every music value whose lowercase form is one of the "no
music" synonyms (`none`, `no`, `off`, `coach only`, `coach-only`) is
normalized to the canonical `"none"`. -/
theorem normalize_plan_music_synonyms_to_none (p : Payload) (plan : GenerationPlan) (s : String)
    (h : normalize_plan p = some plan) (hg : pyGet p "music" = PyVal.str s)
    (hmem : pyLower s ∈ MUSIC_NONE_SYNONYMS) : plan.music = "none" := by
  obtain ⟨d, hd, rfl⟩ := Option.map_eq_some'.mp h
  show normMusic (pyGet p "music") = "none"
  rw [hg]
  have hne := ne_empty_of_pyLower_mem s hmem
  simp only [normMusic]
  have h1 : pyOr (.str s) (.str "none") = .str s := by simp [pyOr, truthy, hne]
  rw [h1, show pyStr (PyVal.str s) = s from rfl, pyStrip_of_pyLower_mem s hmem, if_pos hmem]

/-- Witness for C7 at the inputs `"OFF"` and `"Coach Only"`. -/
theorem normalize_plan_music_synonyms_to_none_witness :
    ({ difficulty := "beginner", length_min := 30, pace := "Normal",
        music := "none" } : GenerationPlan).music = "none" ∧
    ({ difficulty := "beginner", length_min := 30, pace := "Normal",
        music := "none" } : GenerationPlan).music = "none" :=
  ⟨normalize_plan_music_synonyms_to_none [("music", PyVal.str "OFF")] _ "OFF"
      (by decide) (by decide) (by decide),
    normalize_plan_music_synonyms_to_none [("music", PyVal.str "Coach Only")] _ "Coach Only"
      (by decide) (by decide) (by decide)⟩

/-- Claim C10: on main.py line 36 the `length` key takes precedence over
`length_min` — a truthy `length` is the value passed to `int(...)`, a falsy
or absent `length` defers to a truthy `length_min`, and when both are falsy
the literal default 30 is used; concretely, `length=0` with `length_min=20`
yields `length_min=20` and `length=0` alone yields 30. -/
theorem normalize_plan_length_precedence :
    (∀ p : Payload, truthy (pyGet p "length") = true → lengthArg p = pyGet p "length") ∧
    (∀ p : Payload, truthy (pyGet p "length") = false →
      truthy (pyGet p "length_min") = true → lengthArg p = pyGet p "length_min") ∧
    (∀ p : Payload, truthy (pyGet p "length") = false →
      truthy (pyGet p "length_min") = false → lengthArg p = PyVal.int 30) ∧
    normalize_plan [("length", PyVal.int 0), ("length_min", PyVal.int 20)] =
      some { difficulty := "beginner", length_min := 20, pace := "Normal", music := "none" } ∧
    normalize_plan [("length", PyVal.int 0)] =
      some { difficulty := "beginner", length_min := 30, pace := "Normal", music := "none" } := by
  refine ⟨fun p h => ?_, fun p h1 h2 => ?_, fun p h1 h2 => ?_, by decide, by decide⟩
  · simp [lengthArg, pyOr, h]
  · simp [lengthArg, pyOr, h1, h2]
  · simp [lengthArg, pyOr, h1, h2]

/-- Witness for C10, exercising the three precedence cases at concrete
payloads. -/
theorem normalize_plan_length_precedence_witness :
    lengthArg [("length", PyVal.int 45), ("length_min", PyVal.int 20)] =
      pyGet [("length", PyVal.int 45), ("length_min", PyVal.int 20)] "length" ∧
    lengthArg [("length", PyVal.int 0), ("length_min", PyVal.int 20)] =
      pyGet [("length", PyVal.int 0), ("length_min", PyVal.int 20)] "length_min" ∧
    lengthArg [("length", PyVal.int 0)] = PyVal.int 30 :=
  ⟨normalize_plan_length_precedence.1 _ (by decide),
    normalize_plan_length_precedence.2.1 _ (by decide) (by decide),
    normalize_plan_length_precedence.2.2.1 _ (by decide) (by decide)⟩

/-- Claim C2, counterexample: a `/generate` request with an unparseable JSON
body and an otherwise fully successful world is not answered with HTTP 400 —
`request.get_json(force=True, silent=True)` (line 156) returns `None` for
such a body and the handler substitutes `{}`, so the `400 Invalid JSON`
branch of lines 157-158 is unreachable (in the committed file the request
then dies at the line-233 `NameError` and is answered 500). -/
theorem generate_unparseable_body_not_400 :
    (generate_shipped { body := Option.none, authHeader := Option.none } allOkWorld).1.status
        = 500 ∧
    (generate_shipped { body := Option.none, authHeader := Option.none } allOkWorld).1.status
        ≠ 400 := by
  refine ⟨by decide, by decide⟩

/-- Claim C2 as amended: an unparseable JSON body is never answered 400;
it is treated exactly like an empty `{}` body, and every `/generate`
response of the committed file carries status 500 (and a JSON body with
`status:"error"`). -/
theorem generate_unparseable_body_treated_as_empty (req : GenRequest) (w : ExternalWorld)
    (h : req.body = Option.none) :
    generate_shipped req w = generate_shipped { body := some [], authHeader := req.authHeader } w ∧
    (generate_shipped req w).1.status ≠ 400 := by
  constructor
  · obtain ⟨b, a⟩ := req
    cases h
    rfl
  · rw [(generate_shipped_response req w).1]
    decide

/-- Witness for the amended C2 at a concrete unparseable-body request. -/
theorem generate_unparseable_body_treated_as_empty_witness :
    generate_shipped { body := Option.none, authHeader := some "Bearer abc" } allOkWorld =
      generate_shipped { body := some [], authHeader := some "Bearer abc" } allOkWorld ∧
    (generate_shipped { body := Option.none, authHeader := some "Bearer abc" } allOkWorld).1.status
      ≠ 400 :=
  generate_unparseable_body_treated_as_empty _ _ rfl

/-- Claim C3, divergence witness (the claim itself is a code bug, see the
section comment on `generate_shipped`): in the committed file, whenever the
body parses, the jobs insert succeeds and returns a row with a truthy id —
the exact scenario in which the spec requires the compensation delete —
the handler issues no delete at all, and the failure response names the
generic `"Internal server error"` (with the `sess_payload` `NameError` as
details) rather than the session-insert error. -/
theorem generate_session_failure_no_rollback_delete (req : GenRequest) (w : ExternalWorld)
    (r : Payload) (rs : List Payload)
    (h1 : (normalize_plan ((req.body).getD [])).isSome = true)
    (h2 : w.jobInsert = CallResult.resp Option.none (r :: rs))
    (h3 : truthy (pyGet r "id") = true) :
    (generate_shipped req w).2.countP (fun op => op.isDelete) = 0 ∧
    List.lookup "error" (generate_shipped req w).1.body =
      some (PyVal.str "Internal server error") ∧
    List.lookup "details" (generate_shipped req w).1.body = some (PyVal.str nameErrorDetails) := by
  obtain ⟨plan, hp⟩ := Option.isSome_iff_exists.mp h1
  simp only [generate_shipped, hp, h2, errTruthy, List.isEmpty_cons, Bool.or_false,
    List.headD_cons, h3, if_true]
  refine ⟨rfl, rfl, rfl⟩

/-- Witness for the C3 divergence theorem at a concrete request against
`sessFailWorld` (jobs insert succeeds, class_sessions insert would fail). -/
theorem generate_session_failure_no_rollback_delete_witness :
    (generate_shipped { body := some [], authHeader := Option.none } sessFailWorld).2.countP
        (fun op => op.isDelete) = 0 ∧
    List.lookup "error"
        (generate_shipped { body := some [], authHeader := Option.none } sessFailWorld).1.body =
      some (PyVal.str "Internal server error") ∧
    List.lookup "details"
        (generate_shipped { body := some [], authHeader := Option.none } sessFailWorld).1.body =
      some (PyVal.str nameErrorDetails) :=
  generate_session_failure_no_rollback_delete _ sessFailWorld [("id", PyVal.str "job-1")] []
    (by decide) (by decide) (by decide)

/-- Claim C4, divergence witness (code bug, same root cause as C3): a fully
concrete evaluation of the committed handler in the session-insert-failure
world.  The operation trace contains exactly the jobs insert and zero
deletes — not the exactly-one delete targeting the job id that the claim
requires — and the response is the generic 500, whose error text does not
match the session-insert failure. -/
theorem generate_session_failure_zero_deletes_concrete :
    generate_shipped { body := some [], authHeader := Option.none } sessFailWorld =
      (internalError nameErrorDetails,
        [StoreOp.insert "jobs" (jobRow ⟨"beginner", 30, "Normal", "none"⟩)]) ∧
    (generate_shipped { body := some [], authHeader := Option.none } sessFailWorld).2.countP
        (fun op => op.isDelete) = 0 := by
  refine ⟨by decide, by decide⟩

/-- Claim C8, divergence witness (code bug, same root cause as C3/C4): the
identity block itself behaves as claimed — an absent `Authorization` header
resolves to no identity without raising — but in the committed file the
request never completes its normal enqueue path: even with the identity
absent and the jobs insert fully successful, the response is the generic
500 `status:"error"`, never the 202 success carrying `user_id: null`. -/
theorem generate_anonymous_request_never_succeeds (req : GenRequest) (w : ExternalWorld)
    (h1 : req.authHeader = Option.none)
    (h2 : w.jobInsert = CallResult.resp Option.none [[("id", PyVal.str "job-1")]]) :
    resolveUser req w = Option.none ∧
    (generate_shipped req w).1.status = 500 ∧
    List.lookup "status" (generate_shipped req w).1.body = some (PyVal.str "error") := by
  refine ⟨?_, (generate_shipped_response req w).1, (generate_shipped_response req w).2⟩
  simp [resolveUser, h1]

/-- Witness for the C8 divergence theorem at a concrete anonymous request
in the all-success world. -/
theorem generate_anonymous_request_never_succeeds_witness :
    resolveUser { body := some [], authHeader := Option.none } allOkWorld = Option.none ∧
    (generate_shipped { body := some [], authHeader := Option.none } allOkWorld).1.status = 500 ∧
    List.lookup "status"
        (generate_shipped { body := some [], authHeader := Option.none } allOkWorld).1.body =
      some (PyVal.str "error") :=
  generate_anonymous_request_never_succeeds _ allOkWorld rfl rfl

/-- Claim C9: the job-status reader (modelled from the spec, the route being
absent from `src/`) answers 404 `{status:"not_found"}` for an unknown job
identifier, and 200 with the full stored record plus its normalized
`status`/`file_url`/`error` fields for a known one, mutating nothing. -/
theorem job_status_found_and_not_found :
    (∀ (store : String → Option Payload) (jid : String), store jid = Option.none →
      job_status store jid =
        ({ status := 404, body := [("status", PyVal.str "not_found")] }, store)) ∧
    (∀ (store : String → Option Payload) (jid : String) (r : Payload), store jid = some r →
      job_status store jid =
        ({ status := 200,
           body := r ++ [("status", pyGet r "status"), ("file_url", pyGet r "file_url"),
                         ("error", pyGet r "error")] }, store)) := by
  constructor
  · intro store jid h
    simp [job_status, h]
  · intro store jid r h
    simp [job_status, h]

/-- Witness for C9 at a concrete one-job store, exercising both the unknown
and the known identifier. -/
theorem job_status_found_and_not_found_witness :
    job_status (fun j => if j = "j1" then some [("status", PyVal.str "queued")] else Option.none)
        "missing" =
      ({ status := 404, body := [("status", PyVal.str "not_found")] },
        fun j => if j = "j1" then some [("status", PyVal.str "queued")] else Option.none) ∧
    job_status (fun j => if j = "j1" then some [("status", PyVal.str "queued")] else Option.none)
        "j1" =
      ({ status := 200,
         body := [("status", PyVal.str "queued")] ++
           [("status", pyGet [("status", PyVal.str "queued")] "status"),
            ("file_url", pyGet [("status", PyVal.str "queued")] "file_url"),
            ("error", pyGet [("status", PyVal.str "queued")] "error")] },
        fun j => if j = "j1" then some [("status", PyVal.str "queued")] else Option.none) :=
  ⟨job_status_found_and_not_found.1 _ _ (by decide),
    job_status_found_and_not_found.2 _ _ _ (by decide)⟩
